import Mathlib

set_option maxRecDepth 8000

namespace Rag

/-!
# Verification of the Conversation Orchestration Engine

Shallow embedding of the core of
`rag-knowledge-assistant-using-llm-langchain`:
the privacy filter (`src/core/security/privacy_filter.py`), the memory
manager (`src/core/memory/memory_manager.py`), the embedding fallback chain
(`src/core/vector_store/chroma_store.py`) and the orchestration engine
(`src/core/llm/llm_service.py`).
-/

/-! ## Regex engine

`PrivacyFilter` works by applying Python `re` patterns.  We embed the exact
subset of `re` those seven patterns use: character classes, concatenation,
alternation (first alternative preferred), greedy `?`, greedy bounded and
unbounded repetition over character classes, and the word boundary `\b`.
Matching is backtracking with Python's priorities: at a given start
position the first result in priority order is the match; the overall match
is at the leftmost position that has one. -/

/-- Regular expressions.  Bounded repetition `a{m,n}` is expanded at pattern
construction time (see `reN` / `upTo`), so matching is plain structural
recursion. -/
inductive RE where
  | eps : RE
  | pred : (Char → Bool) → RE
  | seq : RE → RE → RE
  | alt : RE → RE → RE
  | opt : RE → RE
  | starP : (Char → Bool) → RE
  | wordB : RE

/-- ASCII fragment of Python's `\w` (the inputs of interest are ASCII). -/
def isWordChar (c : Char) : Bool := c.isAlphanum || c == '_'

/-- ASCII fragment of Python's `\s`. -/
def isSpaceChar (c : Char) : Bool :=
  c == ' ' || c == '\t' || c == '\n' || c == '\r' || c == '\x0b' || c == '\x0c'

/-- ASCII digit, Python `\d`. -/
def isDigitChar (c : Char) : Bool := c.isDigit

/-- All splits of `s` into a consumed run of characters satisfying `f` and a
remainder, longest (greedy) first. -/
def starSplits (f : Char → Bool) : List Char → List (List Char × List Char)
  | [] => [([], [])]
  | c :: s =>
    if f c then
      ((starSplits f s).map (fun pr => (c :: pr.1, pr.2))) ++ [([], c :: s)]
    else
      [([], c :: s)]

/-- Does `\b` hold between the reversed left context `L` (head = character
immediately to the left) and the rest of the input `s`? -/
def wordBHolds (L s : List Char) : Bool :=
  match L, s with
  | [], [] => false
  | [], c :: _ => isWordChar c
  | c :: _, [] => isWordChar c
  | a :: _, b :: _ => isWordChar a != isWordChar b

/-- All ways `r` can match a prefix of `s` (given reversed left context `L`
for `\b`), as `(consumed, rest)` pairs in backtracking priority order.
The head, when present, is the match Python's engine produces at this
position. -/
def allMatches : RE → List Char → List Char → List (List Char × List Char)
  | .eps, _, s => [([], s)]
  | .pred _, _, [] => []
  | .pred f, _, c :: s => if f c then [([c], s)] else []
  | .seq a b, L, s =>
    (allMatches a L s).flatMap (fun pr =>
      (allMatches b (pr.1.reverse ++ L) pr.2).map (fun qr => (pr.1 ++ qr.1, qr.2)))
  | .alt a b, L, s => allMatches a L s ++ allMatches b L s
  | .opt a, L, s => allMatches a L s ++ [([], s)]
  | .starP f, _, s => starSplits f s
  | .wordB, L, s => if wordBHolds L s then [([], s)] else []

/-- Is there a match of `r` anywhere in `s` (left context `L`)?  This is
exactly the emptiness test `if re.findall(pattern, text):` performs: the
list of matches `findall` returns is nonempty iff some start position has a
match. -/
def hasMatch (r : RE) : List Char → List Char → Bool
  | L, [] => !(allMatches r L []).isEmpty
  | L, c :: s => !(allMatches r L (c :: s)).isEmpty || hasMatch r (c :: L) s

/-- One scanning step of `re.sub`, fuel-bounded for totality.  Each step
either replaces the priority match at the current position (resuming after
it, with the consumed original characters as left context, as Python does)
or copies one character.  A zero-width match is replaced and the following
character copied (Python ≥ 3.7 semantics); the seven filter patterns can
never match the empty string, so that branch is unreachable for them. -/
def substAux (r : RE) (marker : List Char) : Nat → List Char → List Char → List Char
  | 0, _, s => s
  | _ + 1, L, [] =>
    if (allMatches r L []).isEmpty then [] else marker
  | fuel + 1, L, c :: s =>
    match (allMatches r L (c :: s)).head? with
    | some (consumed, rest) =>
      match consumed with
      | [] => marker ++ c :: substAux r marker fuel (c :: L) s
      | _ :: _ => marker ++ substAux r marker fuel (consumed.reverse ++ L) rest
    | none => c :: substAux r marker fuel (c :: L) s

/-- `re.sub(pattern, marker, text)`: every step of `substAux` consumes at
least one input character, so `length + 1` fuel never runs out. -/
def subst (r : RE) (marker : List Char) (s : List Char) : List Char :=
  substAux r marker (s.length + 1) [] s

/-! ### The seven `PrivacyFilter.patterns`, transcribed -/

/-- Literal character. -/
def chr (c : Char) : RE := .pred (fun d => d == c)

/-- Greedy `f+` = `f f*`. -/
def plus (f : Char → Bool) : RE := .seq (.pred f) (.starP f)

/-- `a` repeated exactly `n` times. -/
def reN (a : RE) : Nat → RE
  | 0 => .eps
  | n + 1 => .seq a (reN a n)

/-- Greedy `a{0,n}`. -/
def upTo (a : RE) : Nat → RE
  | 0 => .eps
  | n + 1 => .opt (.seq a (upTo a n))

/-- Right-nested concatenation of a list of regexes. -/
def seqs (l : List RE) : RE := l.foldr .seq .eps

/-- `\d{n}`. -/
def digits (n : Nat) : RE := reN (.pred isDigitChar) n

/-- `\d{1,3}`. -/
def d13 : RE := .seq (.pred isDigitChar) (upTo (.pred isDigitChar) 2)

/-- `[A-Za-z0-9._%+-]` (e-mail local part). -/
def emailLocalClass (c : Char) : Bool :=
  c.isAlphanum || c == '.' || c == '_' || c == '%' || c == '+' || c == '-'

/-- `[A-Za-z0-9.-]` (e-mail domain). -/
def emailDomClass (c : Char) : Bool := c.isAlphanum || c == '.' || c == '-'

/-- `[A-Z|a-z]` — the class really contains `|`, as written in the source. -/
def tldClass (c : Char) : Bool := c.isUpper || c == '|' || c.isLower

/-- `\b[A-Za-z0-9._%+-]+@[A-Za-z0-9.-]+\.[A-Z|a-z]{2,}\b` -/
def emailRE : RE :=
  seqs [.wordB, plus emailLocalClass, chr '@', plus emailDomClass, chr '.',
        .pred tldClass, .pred tldClass, .starP tldClass, .wordB]

/-- `[\s-]` -/
def spaceDashClass (c : Char) : Bool := isSpaceChar c || c == '-'

/-- `[\s.-]` -/
def spaceDotDashClass (c : Char) : Bool := isSpaceChar c || c == '.' || c == '-'

/-- `\b(\+\d{1,3}[\s-]?)?\(?\d{3}\)?[\s.-]?\d{3}[\s.-]?\d{4}\b` -/
def phoneRE : RE :=
  seqs [.wordB,
        .opt (seqs [chr '+', d13, .opt (.pred spaceDashClass)]),
        .opt (chr '('), digits 3, .opt (chr ')'),
        .opt (.pred spaceDotDashClass), digits 3,
        .opt (.pred spaceDotDashClass), digits 4, .wordB]

/-- `\b(?:\d{4}[\s-]?){4}|\d{16}\b` — `|` has lowest precedence, so the
leading `\b` belongs only to the first alternative and the trailing `\b`
only to the second. -/
def creditCardRE : RE :=
  .alt (.seq .wordB (reN (.seq (digits 4) (.opt (.pred spaceDashClass))) 4))
       (.seq (digits 16) .wordB)

/-- `\b\d{3}[-]?\d{2}[-]?\d{4}\b` -/
def ssnRE : RE :=
  seqs [.wordB, digits 3, .opt (chr '-'), digits 2, .opt (chr '-'), digits 4, .wordB]

/-- `\b\d{1,3}\.\d{1,3}\.\d{1,3}\.\d{1,3}\b` -/
def ipAddressRE : RE :=
  seqs [.wordB, d13, chr '.', d13, chr '.', d13, chr '.', d13, .wordB]

/-- `[A-Za-z0-9_-]` -/
def apiKeyClass (c : Char) : Bool := c.isAlphanum || c == '_' || c == '-'

/-- `\b[A-Za-z0-9_-]{20,60}\b` -/
def apiKeyRE : RE :=
  seqs [.wordB, reN (.pred apiKeyClass) 20, upTo (.pred apiKeyClass) 40, .wordB]

/-- `https?://[^:]+:[^@]+@[^\s]+` -/
def urlCredRE : RE :=
  seqs [chr 'h', chr 't', chr 't', chr 'p', .opt (chr 's'),
        chr ':', chr '/', chr '/',
        plus (fun c => !(c == ':')), chr ':',
        plus (fun c => !(c == '@')), chr '@',
        plus (fun c => !(isSpaceChar c))]

/-- `PrivacyFilter.patterns` with the redaction marker each category's
`elif` branch substitutes, in dict insertion order. -/
def privacyPatterns : List (RE × String) :=
  [(emailRE, "[EMAIL REDACTED]"),
   (phoneRE, "[PHONE REDACTED]"),
   (creditCardRE, "[CREDIT CARD REDACTED]"),
   (ssnRE, "[SSN REDACTED]"),
   (ipAddressRE, "[IP ADDRESS REDACTED]"),
   (apiKeyRE, "[API KEY REDACTED]"),
   (urlCredRE, "[URL WITH CREDENTIALS REDACTED]")]

/-- One iteration of the loop in `PrivacyFilter.filter_text`: if the
category's `findall` is nonempty, set `has_sensitive_data` and substitute
the marker, else leave the accumulator alone. -/
def filterStep (acc : List Char × Bool) (cat : RE × String) : List Char × Bool :=
  if hasMatch cat.1 [] acc.1 then (subst cat.1 cat.2.toList acc.1, true) else acc

/-- `PrivacyFilter.filter_text(text)`, returning
`(filtered_text, has_sensitive_data)`. -/
def filter_text (enable_filter : Bool) (text : List Char) : List Char × Bool :=
  if !enable_filter then (text, false)
  else List.foldl filterStep (text, false) privacyPatterns

/-! ## Memory manager (`src/core/memory/memory_manager.py`) -/

/-- Message roles; the session files only ever store `"user"` and
`"assistant"` (`MemoryManager._add_to_persistent_memory` callers). -/
inductive Role where
  | user : Role
  | assistant : Role
deriving DecidableEq, Repr

/-- A chat message (`HumanMessage`/`AIMessage` content, or a session-file
entry; the timestamp field plays no role in the verified claims). -/
structure Msg where
  role : Role
  content : String
deriving DecidableEq, Repr

/-- `core.config.enums.MemoryMode`. -/
inductive MemoryMode where
  | TRANSIENT : MemoryMode
  | PERSISTENT : MemoryMode
deriving DecidableEq, Repr

/-- `AppConfig.MEMORY_MESSAGE_LIMIT`. -/
def MEMORY_MESSAGE_LIMIT : Nat := 10

/-- `messages[-n:]` for `n > 0`, i.e. the last `n` elements. -/
def lastN (n : Nat) (l : List α) : List α := l.drop (l.length - n)

/-- The body of `MemoryManager._trim_transient_memory`, parametrised by the
limit: `if len(messages) > limit: messages = messages[-limit:]`.  (The
negative-slice reading `drop (length - limit)` is exact because the
configured limit, 10, is positive.) -/
def trimTo (limit : Nat) (messages : List Msg) : List Msg :=
  if messages.length > limit then messages.drop (messages.length - limit) else messages

/-- `MemoryManager._trim_transient_memory` at the configured limit. -/
def trim_transient_memory (messages : List Msg) : List Msg :=
  trimTo MEMORY_MESSAGE_LIMIT messages

/-- Python truthiness of an optional session-id string (`if session_id:`):
false for `None` and for the empty string. -/
def sidTruthy : Option String → Bool
  | none => false
  | some s => !(s == "")

/-- `MemoryManager` state.  `transient` is
`transient_memory.chat_memory.messages`; `sessions` models the on-disk
session files (id ↦ stored message list; title/timestamps omitted, no claim
mentions them); `persistent_ready` is `hasattr(self, 'persistent_memory')`;
`embedding_ok` records whether `_init_persistent_memory` would succeed
(embedding function present and the Chroma store constructible). -/
structure MMState where
  memory_mode : MemoryMode
  transient : List Msg
  sessions : List (String × List Msg)
  persistent_ready : Bool
  embedding_ok : Bool
deriving DecidableEq, Repr

/-- `MemoryManager.__init__`: the transient buffer starts empty; in
PERSISTENT mode `_init_persistent_memory` runs and on failure falls back to
TRANSIENT. -/
def initial_mm (mode : MemoryMode) (embedding_ok : Bool) : MMState :=
  if mode = .PERSISTENT then
    if embedding_ok then ⟨.PERSISTENT, [], [], true, true⟩
    else ⟨.TRANSIENT, [], [], false, false⟩
  else ⟨.TRANSIENT, [], [], false, embedding_ok⟩

/-- `MemoryManager._update_session_metadata`, restricted to the stored
message list: read the session file if it exists (else start a fresh one),
append the message, write back. -/
def update_session_metadata (sessions : List (String × List Msg)) (sid : String)
    (m : Msg) : List (String × List Msg) :=
  if (sessions.lookup sid).isSome then
    sessions.map (fun p => if p.1 = sid then (p.1, p.2 ++ [m]) else p)
  else sessions ++ [(sid, [m])]

/-- `MemoryManager._add_to_persistent_memory`: writes the vector-store
document (not modelled; no claim depends on it) and then the session file.
When `persistent_memory` was never initialized the attribute access raises
and the method's own `except` swallows the error, so the session file is
not touched. -/
def add_to_persistent_memory (st : MMState) (m : Msg) (sid : String) : MMState :=
  if st.persistent_ready then
    { st with sessions := update_session_metadata st.sessions sid m }
  else st

/-- `MemoryManager.add_user_message`: always append to the transient
buffer, trim, and additionally persist iff the mode is PERSISTENT and a
(truthy) session id was supplied. -/
def add_user_message (st : MMState) (message : String) (session_id : Option String) :
    MMState :=
  let st1 := { st with transient := trim_transient_memory (st.transient ++ [⟨.user, message⟩]) }
  match session_id with
  | some sid =>
    if st1.memory_mode = .PERSISTENT ∧ sidTruthy (some sid) then
      add_to_persistent_memory st1 ⟨.user, message⟩ sid
    else st1
  | none => st1

/-- `MemoryManager.add_ai_message` (role `"assistant"`). -/
def add_ai_message (st : MMState) (message : String) (session_id : Option String) :
    MMState :=
  let st1 := { st with transient := trim_transient_memory (st.transient ++ [⟨.assistant, message⟩]) }
  match session_id with
  | some sid =>
    if st1.memory_mode = .PERSISTENT ∧ sidTruthy (some sid) then
      add_to_persistent_memory st1 ⟨.assistant, message⟩ sid
    else st1
  | none => st1

/-- `MemoryManager.change_memory_mode`: no-op when the mode is unchanged;
otherwise set the mode and, when switching to PERSISTENT without an
initialized store, run `_init_persistent_memory`, which on failure logs and
falls back to TRANSIENT.  Nothing in the body can raise, so the method
always returns `True`. -/
def mm_change_memory_mode (st : MMState) (mode : MemoryMode) : MMState × Bool :=
  if mode = st.memory_mode then (st, true)
  else if mode = .PERSISTENT ∧ !st.persistent_ready then
    if st.embedding_ok then
      ({ st with memory_mode := mode, persistent_ready := true }, true)
    else ({ st with memory_mode := .TRANSIENT }, true)
  else ({ st with memory_mode := mode }, true)

/-- `MemoryManager.load_session`: refuse in TRANSIENT mode; otherwise clear
the transient buffer first, then look the session file up (missing file ⇒
`False` with the buffer already cleared); replay the stored messages in
order (`"user"` ⇒ user message, else AI message) and trim once. -/
def load_session (st : MMState) (sid : String) : MMState × Bool :=
  if st.memory_mode ≠ .PERSISTENT then (st, false)
  else
    let st1 := { st with transient := ([] : List Msg) }
    match st1.sessions.lookup sid with
    | none => (st1, false)
    | some msgs => ({ st1 with transient := trim_transient_memory msgs }, true)

/-! ## Embedding fallback chain (`src/core/vector_store/chroma_store.py`) -/

/-- `core.config.enums.EmbeddingProvider`. -/
inductive EmbeddingProvider where
  | HUGGINGFACE : EmbeddingProvider
  | OLLAMA : EmbeddingProvider
deriving DecidableEq, Repr

/-- Which embedding object `_initialize_embeddings` ends up returning. -/
inductive EmbClient where
  | huggingFaceEmbeddings : EmbClient
  | ollamaEmbeddings : EmbClient
  | fallbackEmbeddings : EmbClient
deriving DecidableEq, Repr

/-- Environment facts the embedding initializers branch on. -/
structure EmbEnv where
  hf_ok : Bool
  ollama_server_ok : Bool
deriving DecidableEq, Repr

/-- `VectorStore._initialize_ollama_embeddings`: probes the Ollama server;
on success returns the Ollama embeddings; on any failure both `except`
branches return `_get_fallback_embeddings()` (the hash-based
`FallbackEmbeddings`), leaving `self.embedding_provider` as it was. -/
def initialize_ollama_embeddings (env : EmbEnv) (current : EmbeddingProvider) :
    EmbeddingProvider × EmbClient :=
  if env.ollama_server_ok then (current, .ollamaEmbeddings)
  else (current, .fallbackEmbeddings)

/-- `VectorStore._initialize_embeddings`: HuggingFace first; on failure set
`self.embedding_provider = OLLAMA` and fall back to the Ollama path.  The
result pair is (`self.embedding_provider` afterwards, embeddings object). -/
def initialize_embeddings (env : EmbEnv) (provider : EmbeddingProvider) :
    EmbeddingProvider × EmbClient :=
  match provider with
  | .HUGGINGFACE =>
    if env.hf_ok then (.HUGGINGFACE, .huggingFaceEmbeddings)
    else initialize_ollama_embeddings env .OLLAMA
  | .OLLAMA => initialize_ollama_embeddings env .OLLAMA

/-- The provider an embeddings object actually belongs to; the hash-based
`FallbackEmbeddings` corresponds to no provider of the enumeration. -/
def embClientProvider : EmbClient → Option EmbeddingProvider
  | .huggingFaceEmbeddings => some .HUGGINGFACE
  | .ollamaEmbeddings => some .OLLAMA
  | .fallbackEmbeddings => none

/-! ## Orchestration engine (`src/core/llm/llm_service.py`) -/

/-- `core.config.enums.ModelProvider`. -/
inductive ModelProvider where
  | OPENAI : ModelProvider
  | ANTHROPIC : ModelProvider
  | GROQ : ModelProvider
  | OLLAMA : ModelProvider
deriving DecidableEq, Repr

/-- `core.config.enums.AnswerMode`. -/
inductive AnswerMode where
  | DEFAULT : AnswerMode
  | RAG : AnswerMode
  | WEB_SEARCH : AnswerMode
deriving DecidableEq, Repr

/-- The chat-model client `self.llm` points at. -/
inductive LLMClient where
  | chatOpenAI : LLMClient
  | chatAnthropic : LLMClient
  | chatGroq : LLMClient
  | chatOllama : LLMClient
deriving DecidableEq, Repr

/-- The provider a constructed client belongs to. -/
def llmClientProvider : LLMClient → ModelProvider
  | .chatOpenAI => .OPENAI
  | .chatAnthropic => .ANTHROPIC
  | .chatGroq => .GROQ
  | .chatOllama => .OLLAMA

/-- What `self.chain` currently is: the `LLMChain` over `DEFAULT_PROMPT`
(input variable `question`), the `ConversationalRetrievalChain`, or the
`LLMChain` over `WEB_SEARCH_PROMPT` (input variables `question` and
`search_results`). -/
inductive Chain where
  | defaultChain : Chain
  | ragChain : Chain
  | webSearchChain : Chain
deriving DecidableEq, Repr

/-- A retrieved document: `page_content` plus the optional
`metadata['source']` entry. -/
structure Doc where
  page_content : String
  source : Option String
deriving DecidableEq, Repr

/-- One Tavily result (`title`/`content`/`url` keys). -/
structure SearchResult where
  title : String
  content : String
  url : String
deriving DecidableEq, Repr

/-- The three payload shapes `_get_web_search_response` handles (a bare
list, a dict with a `results` key, or a plain string). -/
inductive SearchResults where
  | asList : List SearchResult → SearchResults
  | asDict : List SearchResult → SearchResults
  | asStr : String → SearchResults
deriving DecidableEq, Repr

/-- Python falsiness of an optional credential string
(`if not ModelConfig.X_API_KEY:`): `os.getenv` returns `None` when unset,
and the empty string is also falsy. -/
def keyFalsy : Option String → Bool
  | none => true
  | some s => s == ""

/-- External world: configured credentials and the behaviour of the
backends.  Backend calls that can raise are modelled as `Except`, the
raised exception being the `error` payload. -/
structure Env where
  openai_key : Option String
  anthropic_key : Option String
  groq_key : Option String
  tavily_key : Option String
  ollama_chat_ok : Bool
  tavily_init_ok : Bool
  llm_invoke : String → Except String String
  rag_chain_invoke : String → Except String String
  search_invoke : String → Except String SearchResults
  similarity_search : String → Except String (List Doc)
  fresh_session_id : String

/-- Engine state: the `LLM` object's fields.  (The legacy
`self.memory` buffer is kept only for LangChain compatibility and is read
by nothing this development verifies, so it is omitted.) -/
structure EngState where
  model_provider : ModelProvider
  answer_mode : AnswerMode
  memory_mode : MemoryMode
  session_id : Option String
  filter_enabled : Bool
  mm : MMState
  llm : LLMClient
  chain : Chain
  search_tool : Bool
deriving DecidableEq, Repr

/-- `LLM._initialize_llm`.  The result carries the provider recorded in
`self.model_provider` afterwards, because the OLLAMA branch overwrites it
with GROQ when the Ollama probe fails.  Construction of the remote clients
themselves is modelled as succeeding once the credential check passes. -/
def initialize_llm (env : Env) (provider : ModelProvider) :
    Except String (ModelProvider × LLMClient) :=
  match provider with
  | .OPENAI =>
    if keyFalsy env.openai_key then
      .error "OpenAI API key not found. Please set OPENAI_API_KEY environment variable."
    else .ok (.OPENAI, .chatOpenAI)
  | .ANTHROPIC =>
    if keyFalsy env.anthropic_key then
      .error "Anthropic API key not found. Please set ANTHROPIC_API_KEY environment variable."
    else .ok (.ANTHROPIC, .chatAnthropic)
  | .GROQ =>
    if keyFalsy env.groq_key then
      .error "Groq API key not found. Please set GROQ_API_KEY environment variable."
    else .ok (.GROQ, .chatGroq)
  | .OLLAMA =>
    if env.ollama_chat_ok then .ok (.OLLAMA, .chatOllama)
    else .ok (.GROQ, .chatGroq)

/-- `LLM._initialize_web_search_chain`: without a Tavily key fall straight
back to the default chain; otherwise install the search tool and the
web-search `LLMChain`, or on a construction error fall back to the default
chain (leaving `self.search_tool` as it was). -/
def initialize_web_search_chain (env : Env) (st : EngState) : EngState :=
  if keyFalsy env.tavily_key then { st with chain := .defaultChain }
  else if env.tavily_init_ok then { st with search_tool := true, chain := .webSearchChain }
  else { st with chain := .defaultChain }

/-- `LLM._initialize_chain` (the final `else` defaults to RAG; our
enumeration is total so it is the RAG arm). -/
def initialize_chain (env : Env) (st : EngState) : EngState :=
  match st.answer_mode with
  | .DEFAULT => { st with chain := .defaultChain }
  | .RAG => { st with chain := .ragChain }
  | .WEB_SEARCH => initialize_web_search_chain env st

/-- `DEFAULT_PROMPT.format(question=q)` (`core/llm/prompts.py`). -/
def DEFAULT_PROMPT_format (question : String) : String :=
  "\nYou are a helpful AI assistant. Answer the user\x27s question to the best of your knowledge.\n\nQuestion: "
    ++ question ++ "\n\nAnswer:\n"

/-- `RAG_PROMPT.format(context=c, question=q)` (`core/llm/prompts.py`). -/
def RAG_PROMPT_format (context question : String) : String :=
  "\nYou are a helpful AI assistant. Answer the user\x27s question based ONLY on the following context:\n\nContext:\n"
    ++ context
    ++ "\n\nQuestion: " ++ question
    ++ "\n\nInstructions:\n1. Use ONLY information from the provided context\n2. If the context doesn\x27t contain relevant information, say \"I don\x27t have information about that in my knowledge base\"\n3. Do not use any prior knowledge or make up information\n4. Include the source file name at the end of your response in the format: [Source: filename.txt]\n\nAnswer:\n"

/-- The inline prompt built in `_get_web_search_response` (lines 349–369). -/
def WEB_INLINE_PROMPT_format (question search_results : String) : String :=
  "\nYou are a helpful AI assistant with access to real-time web search.\nI\x27ve searched the web for: \""
    ++ question ++ "\" \nHere are the search results:\n\n"
    ++ search_results
    ++ "\n\nBased on these search results, please answer the original question: " ++ question
    ++ "\n\nInstructions:\n1. Use information from the search results to provide a comprehensive answer\n2. DO NOT cite sources within your answer text - they will be added automatically at the end\n3. DO NOT mention URLs, source names, or phrases like \"according to...\" in your response\n4. If the search results don\x27t contain relevant information, say so and provide your best answer\n5. Focus on providing factual information only\n\nAnswer:\n"

/-- `self.chain.invoke({"question": query})["text"]`, as performed by
`_get_default_response`.  A LangChain chain validates its inputs against
the prompt's `input_variables` before formatting (`str.format` would raise
`KeyError` regardless), so invoking the web-search `LLMChain` with only
`question` raises instead of calling the model.  The retrieval chain is
behaviourally opaque here and left to an oracle (no reachable state
invokes it through `_get_default_response`). -/
def chain_invoke_question (env : Env) (c : Chain) (q : String) : Except String String :=
  match c with
  | .defaultChain => env.llm_invoke (DEFAULT_PROMPT_format q)
  | .ragChain => env.rag_chain_invoke q
  | .webSearchChain => .error "Missing some input keys: search_results"

/-- `LLM._get_default_response`. -/
def get_default_response (env : Env) (st : EngState) (query : String) :
    Except String String :=
  chain_invoke_question env st.chain query

/-! ### RAG citation assembly (`LLM._get_rag_response`, lines 246–308) -/

/-- The sentinel values `_get_rag_response` skips. -/
def PLACEHOLDER_SOURCES : List String := ["context.txt", "filename.txt", "None"]

/-- `source.replace('\\', '/')`. -/
def replaceBackslashes (l : List Char) : List Char :=
  l.map (fun c => if c = '\\' then '/' else c)

/-- `s.split('/')` on character lists (the result is never empty). -/
def splitSlash : List Char → List (List Char)
  | [] => [[]]
  | c :: s =>
    if c = '/' then [] :: splitSlash s
    else
      match splitSlash s with
      | [] => [[c]]
      | seg :: rest => (c :: seg) :: rest

/-- `source.replace('\\', '/').split('/')[-1]` when the identifier contains
a path separator, else the identifier unchanged. -/
def normalizePath (source : String) : String :=
  let l := source.toList
  if l.contains '/' || l.contains '\\' then
    String.mk ((splitSlash (replaceBackslashes l)).getLastD [])
  else source

/-- Per-document outcome of the source-extraction conditions in the loop:
`none` when the metadata has no `source` key, when the value is empty or a
placeholder; otherwise the (possibly path-reduced) identifier. -/
def doc_valid_source (d : Doc) : Option String :=
  match d.source with
  | none => none
  | some source =>
    if source = "" ∨ source ∈ PLACEHOLDER_SOURCES then none
    else some (normalizePath source)

/-- One iteration of the source-collection loop: append the normalized
identifier unless it is invalid or already collected. -/
def source_step (sources : List String) (d : Doc) : List String :=
  match doc_valid_source d with
  | none => sources
  | some s => if s ∈ sources then sources else sources ++ [s]

/-- The `sources` list `_get_rag_response` accumulates over the retrieved
documents. -/
def rag_sources (docs : List Doc) : List String :=
  docs.foldl source_step []

/-- Python whitespace for `str.strip()`. -/
def isPySpace (c : Char) : Bool := isSpaceChar c

/-- `str.strip()`. -/
def pyStrip (l : List Char) : List Char :=
  ((l.dropWhile isPySpace).reverse.dropWhile isPySpace).reverse

/-- Split at the last `'['`: `some (before, from-bracket-on)` when the
string contains one (`content[:content.rfind('[')]` and
`content[content.rfind('['):]`), else `none` (`rfind` returns `-1`). -/
def splitAtLastBracket : List Char → Option (List Char × List Char)
  | [] => none
  | c :: rest =>
    match splitAtLastBracket rest with
    | some (p, t) => some (c :: p, t)
    | none => if c = '[' then some ([], c :: rest) else none

/-- Is `pat` a contiguous subsequence of `s` (Python `in` on strings)? -/
def containsSeq (pat : List Char) : List Char → Bool
  | [] => pat.isEmpty
  | c :: s => pat.isPrefixOf (c :: s) || containsSeq pat s

/-- Lines 296–298 of `_get_rag_response`: when the stripped answer ends in
`]` and the segment from the last `[` contains `[Source`, drop that
trailing segment and strip. -/
def stripModelCitation (content : String) : String :=
  match splitAtLastBracket content.toList with
  | none => content
  | some (pre, suf) =>
    if (pyStrip content.toList).getLast? = some ']' && containsSeq "[Source".toList suf then
      String.mk (pyStrip pre)
    else content

/-- Lines 300–306: append the validated citation block. -/
def appendSourcesBlock (content : String) (sources : List String) : String :=
  if sources.isEmpty then content
  else if sources.length = 1 then
    content ++ "\n\n[Source: " ++ String.intercalate ", " sources ++ "]"
  else
    content ++ "\n\n[Sources: " ++ String.intercalate ", " sources ++ "]"

/-- `LLM._get_rag_response`: retrieve, build the context, prompt the model,
strip any model-added trailing citation, then append the validated source
block. -/
def get_rag_response (env : Env) (_st : EngState) (query : String) :
    Except String String := do
  let docs ← env.similarity_search query
  let context := String.intercalate "\n\n" (docs.map (·.page_content))
  let sources := rag_sources docs
  let response ← env.llm_invoke (RAG_PROMPT_format context query)
  pure (appendSourcesBlock (stripModelCitation response) sources)

/-! ### Web search (`LLM._get_web_search_response`, lines 310–399) -/

/-- `f"Title: {title}\nContent: {content}\n---"` (the URL is deliberately
left out of the formatted block). -/
def formatSearchResult (r : SearchResult) : String :=
  "Title: " ++ r.title ++ "\nContent: " ++ r.content ++ "\n---"

/-- Lines 385–389: strip a model-added trailing `[... source ...]` block
(case-insensitively) before appending the URL citation. -/
def stripTrailingSources (result : String) : String :=
  if (pyStrip result.toList).getLast? = some ']' then
    match splitAtLastBracket result.toList with
    | none => result
    | some (pre, suf) =>
      if !pre.isEmpty && containsSeq "source".toList (suf.map Char.toLower) then
        String.mk (pyStrip pre)
      else result
  else result

/-- The `try` block of `_get_web_search_response`: search, format the
results (three accepted shapes), prompt the model with the inline
attribution-suppressing prompt, then append the collected URLs.  A missing
`search_tool` attribute (never installed) raises `AttributeError` inside
the same `try`. -/
def web_search_try (env : Env) (st : EngState) (query : String) :
    Except String String := do
  if !st.search_tool then throw "AttributeError: search_tool"
  let results ← env.search_invoke query
  let formatted : List String :=
    match results with
    | .asList rs => rs.map formatSearchResult
    | .asDict rs => rs.map formatSearchResult
    | .asStr s => [s]
  let all_results := String.intercalate "\n\n" formatted
  let response ← env.llm_invoke (WEB_INLINE_PROMPT_format query all_results)
  let urls : List String :=
    match results with
    | .asList rs => (rs.map (·.url)).filter (fun u => !(u == ""))
    | .asDict rs => (rs.map (·.url)).filter (fun u => !(u == ""))
    | .asStr _ => []
  if urls.isEmpty then pure response
  else
    pure (stripTrailingSources response ++ "\n\n[Sources: " ++ String.intercalate ", " urls ++ "]")

/-- `LLM._get_web_search_response`: on any exception in the `try` block,
fall back to `_get_default_response(query)`; an exception raised by that
fallback itself propagates (it happens inside the `except` handler). -/
def get_web_search_response (env : Env) (st : EngState) (query : String) :
    Except String String :=
  match web_search_try env st query with
  | .ok r => .ok r
  | .error _ => get_default_response env st query

/-! ### `LLM.get_response` (lines 201–239) -/

/-- The answer-mode dispatch in the middle of `get_response` (the final
`else` defaults to RAG; our enumeration is total so it is the RAG arm). -/
def dispatch_response (env : Env) (st : EngState) (query : String) :
    Except String String :=
  match st.answer_mode with
  | .DEFAULT => get_default_response env st query
  | .RAG => get_rag_response env st query
  | .WEB_SEARCH => get_web_search_response env st query

/-- The privacy-filtered query `get_response` computes first. -/
def filtered_query (st : EngState) (query : String) : String :=
  String.mk (filter_text st.filter_enabled query.toList).1

/-- The `has_sensitive_data` flag of the filtered query. -/
def filtered_flag (st : EngState) (query : String) : Bool :=
  (filter_text st.filter_enabled query.toList).2

/-- The engine state after `get_response` has appended the filtered query
as a user message.  (The history fetch and the legacy-memory sync that
precede it read state but mutate nothing we model.) -/
def after_user_append (st : EngState) (query : String) : EngState :=
  { st with mm := add_user_message st.mm (filtered_query st query) st.session_id }

/-- The apology `get_response` builds in its `except` handler. -/
def error_response (e : String) : String :=
  "I encountered an error processing your request: " ++ e

/-- `LLM.get_response`: filter, append the user message, dispatch on the
answer mode, append the answer — and on any exception record an error
message as the AI message and return it with the flag forced to `False`.
The pre-dispatch steps are total in this model, so the dispatch is the
only error source, exactly as in the source where the `try` covers the
whole body. -/
def get_response (env : Env) (st : EngState) (query : String) :
    EngState × String × Bool :=
  match dispatch_response env (after_user_append st query) (filtered_query st query) with
  | .ok resp =>
    ({ after_user_append st query with
        mm := add_ai_message (after_user_append st query).mm resp st.session_id },
      resp, filtered_flag st query)
  | .error e =>
    ({ after_user_append st query with
        mm := add_ai_message (after_user_append st query).mm (error_response e) st.session_id },
      error_response e, false)

/-! ### Runtime mode switches (lines 401–480) -/

/-- `ModelProvider(provider)` — string-to-enum coercion by value.  (The
manual fallback loop in the source re-checks the same `.value` equality, so
it can never rescue a string the constructor rejected.) -/
def parse_model_provider (s : String) : Option ModelProvider :=
  if s = "openai" then some .OPENAI
  else if s = "anthropic" then some .ANTHROPIC
  else if s = "groq" then some .GROQ
  else if s = "ollama" then some .OLLAMA
  else none

/-- `AnswerMode(mode)` — string-to-enum coercion by value. -/
def parse_answer_mode (s : String) : Option AnswerMode :=
  if s = "default" then some .DEFAULT
  else if s = "rag" then some .RAG
  else if s = "web_search" then some .WEB_SEARCH
  else none

/-- `LLM.change_model_provider`: an unparsable string fails before any
mutation; otherwise `self.model_provider` is assigned first, and only then
is the client rebuilt — if `_initialize_llm` raises, the `except` returns
`False` with the provider field already overwritten but `self.llm` and
`self.chain` untouched. -/
def change_model_provider (env : Env) (st : EngState) (arg : String ⊕ ModelProvider) :
    EngState × Bool :=
  let parsed : Option ModelProvider :=
    match arg with
    | .inl s => parse_model_provider s
    | .inr p => some p
  match parsed with
  | none => (st, false)
  | some p =>
    let st1 := { st with model_provider := p }
    match initialize_llm env p with
    | .error _ => (st1, false)
    | .ok (p2, client) =>
      (initialize_chain env { st1 with model_provider := p2, llm := client }, true)

/-- `LLM.change_answer_mode`: an unparsable string fails before any
mutation; a valid mode is assigned and the chain re-initialized (chain
construction is non-raising in this model, as the web-search initializer
catches its own errors). -/
def change_answer_mode (env : Env) (st : EngState) (arg : String ⊕ AnswerMode) :
    EngState × Bool :=
  let parsed : Option AnswerMode :=
    match arg with
    | .inl s => parse_answer_mode s
    | .inr m => some m
  match parsed with
  | none => (st, false)
  | some m =>
    (initialize_chain env { st with answer_mode := m }, true)

/-- `LLM.change_memory_mode`: delegate to the memory manager; on success
mirror the mode on the engine and — when switching to PERSISTENT with no
truthy current session id — create a fresh session immediately. -/
def llm_change_memory_mode (env : Env) (st : EngState) (mode : MemoryMode) :
    EngState × Bool :=
  let res := mm_change_memory_mode st.mm mode
  if res.2 then
    let st1 := { st with mm := res.1, memory_mode := mode }
    if mode = .PERSISTENT ∧ !sidTruthy st.session_id then
      ({ st1 with session_id := some env.fresh_session_id }, true)
    else (st1, true)
  else ({ st with mm := res.1 }, false)

/-- `LLM.toggle_privacy_filter`: flips `privacy_filter.enable_filter`;
nothing in the body can raise, so it always returns `True`. -/
def toggle_privacy_filter (st : EngState) (enable : Bool) : EngState × Bool :=
  ({ st with filter_enabled := enable }, true)

/-! ## Claim-support definitions -/

/-- One append through the public memory interface, dispatching on the
role. -/
def apply_append (sid : Option String) (st : MMState) (op : Role × String) : MMState :=
  match op.1 with
  | .user => add_user_message st op.2 sid
  | .assistant => add_ai_message st op.2 sid

/-- The messages a sequence of appends produces, in append order. -/
def msgsOf (ops : List (Role × String)) : List Msg :=
  ops.map (fun op => ⟨op.1, op.2⟩)

/-- First-seen deduplication with an exclusion list, mirroring how the
source loop checks membership against everything accumulated so far. -/
def dedupExcl : List String → List String → List String
  | [], _ => []
  | x :: xs, seen =>
    if x ∈ seen then dedupExcl xs seen else x :: dedupExcl xs (seen ++ [x])

/-- Modelled from the spec: "add to the ordered source list only if not
already present (first-seen order preserved, duplicates dropped)" — keep
the first occurrence of each identifier and drop every later duplicate. -/
def firstSeenDedupSpec : List String → List String
  | [] => []
  | x :: xs => x :: firstSeenDedupSpec (xs.filter (fun y => decide (y ≠ x)))
termination_by l => l.length
decreasing_by
  simp only [List.length_cons]
  exact Nat.lt_succ_of_le (List.length_filter_le _ _)

/-! ### Concrete fixtures for witnesses and counterexamples -/

/-- A fresh transient-mode `MemoryManager`. -/
def mm0 : MMState := ⟨.TRANSIENT, [], [], false, true⟩

/-- A Groq-backed engine in DEFAULT mode with an empty transient buffer. -/
def st0 : EngState :=
  { model_provider := .GROQ, answer_mode := .DEFAULT, memory_mode := .TRANSIENT,
    session_id := none, filter_enabled := true, mm := mm0,
    llm := .chatGroq, chain := .defaultChain, search_tool := false }

/-- Environment where the chat model itself raises, the OpenAI key is
unset, and the Ollama chat probe fails. -/
def envBoom : Env :=
  { openai_key := none, anthropic_key := none, groq_key := some "gk",
    tavily_key := none, ollama_chat_ok := false, tavily_init_ok := true,
    llm_invoke := fun _ => .error "boom",
    rag_chain_invoke := fun _ => .error "boom",
    search_invoke := fun _ => .error "boom",
    similarity_search := fun _ => .error "boom",
    fresh_session_id := "fresh-1" }

/-- Environment where the Tavily search backend raises but the chat model
answers `"ANSWER"` to every prompt. -/
def envWebFail : Env :=
  { openai_key := none, anthropic_key := none, groq_key := some "gk",
    tavily_key := some "tk", ollama_chat_ok := true, tavily_init_ok := true,
    llm_invoke := fun _ => .ok "ANSWER",
    rag_chain_invoke := fun _ => .ok "RAGANSWER",
    search_invoke := fun _ => .error "tavily down",
    similarity_search := fun _ => .ok [],
    fresh_session_id := "fresh-1" }

/-- WEB_SEARCH mode with the Tavily-backed chain installed. -/
def stWeb : EngState :=
  { st0 with answer_mode := .WEB_SEARCH, chain := .webSearchChain, search_tool := true }

/-- WEB_SEARCH mode where no Tavily key was configured, so the default
chain is active and no search tool was ever installed. -/
def stWebNoKey : EngState :=
  { st0 with answer_mode := .WEB_SEARCH, chain := .defaultChain, search_tool := false }

/-- Engine with a non-empty transient buffer and no active session. -/
def stBuf : EngState := { st0 with mm := { mm0 with transient := [⟨.user, "x"⟩] } }

/-- Fresh persistent-mode memory manager for the session round trip. -/
def rt_m0 : MMState := initial_mm .PERSISTENT true

/-- The round-trip session: user `"hello"` then assistant `"hi"`, both
persisted under session `"s1"`. -/
def rt_m2 : MMState :=
  add_ai_message (add_user_message rt_m0 "hello" (some "s1")) "hi" (some "s1")

/-- The C2 counterexample input: a bare 16-digit card number directly
followed by a spaced one. -/
def ccAttack : List Char := "12345678901234561234 5678 9012 3456".toList

/-- Retrieved passages with source identifiers `[A, B, A, C]` where `B` is
the placeholder `context.txt`. -/
def exampleDocs : List Doc :=
  [⟨"p1", some "doc1.pdf"⟩, ⟨"p2", some "context.txt"⟩,
   ⟨"p3", some "doc1.pdf"⟩, ⟨"p4", some "notes.txt"⟩]

/-- Embedding environment where HuggingFace and the Ollama server both
fail. -/
def embEnvAllFail : EmbEnv := ⟨false, false⟩

/-- Embedding environment where HuggingFace fails but the Ollama server is
reachable. -/
def embEnvHfFail : EmbEnv := ⟨false, true⟩

/-! ## C1: bounded transient buffer -/

theorem lastN_length_le (n : Nat) (l : List α) : (lastN n l).length ≤ n := by
  simp only [lastN, List.length_drop]
  omega

theorem trimTo_eq_lastN (n : Nat) (l : List Msg) : trimTo n l = lastN n l := by
  unfold trimTo lastN
  split
  · rfl
  · next h =>
    have h0 : l.length - n = 0 := by omega
    rw [h0, List.drop_zero]

theorem trimTo_lastN_append (n : Nat) (hn : 0 < n) (l : List Msg) (m : Msg) :
    trimTo n (lastN n l ++ [m]) = lastN n (l ++ [m]) := by
  rcases Nat.lt_or_ge l.length n with h | h
  · have h1 : lastN n l = l := by
      unfold lastN
      rw [Nat.sub_eq_zero_of_le (Nat.le_of_lt h), List.drop_zero]
    have h2 : (l ++ [m]).length ≤ n := by
      simp only [List.length_append, List.length_singleton]
      omega
    have h3 : lastN n (l ++ [m]) = l ++ [m] := by
      unfold lastN
      rw [Nat.sub_eq_zero_of_le h2, List.drop_zero]
    rw [h1, h3]
    unfold trimTo
    rw [if_neg (by omega : ¬ (l ++ [m]).length > n)]
  · have hlen : (lastN n l).length = n := by
      simp only [lastN, List.length_drop]
      omega
    have h1 : (lastN n l ++ [m]).length = n + 1 := by
      simp only [List.length_append, List.length_singleton, hlen]
    unfold trimTo
    rw [if_pos (by omega : (lastN n l ++ [m]).length > n), h1]
    have h2 : n + 1 - n = 1 := by omega
    rw [h2, List.drop_append_of_le_length (by omega : 1 ≤ (lastN n l).length)]
    unfold lastN
    rw [List.drop_drop, List.drop_append_of_le_length
      (by simp only [List.length_append, List.length_singleton]; omega :
        (l ++ [m]).length - n ≤ l.length)]
    simp only [List.length_append, List.length_singleton]
    have h3 : l.length - n + 1 = l.length + 1 - n := by omega
    rw [h3]

theorem add_user_message_transient (st : MMState) (m : String) (sid : Option String) :
    (add_user_message st m sid).transient
      = trim_transient_memory (st.transient ++ [⟨.user, m⟩]) := by
  unfold add_user_message add_to_persistent_memory
  cases sid with
  | none => rfl
  | some s =>
    dsimp only
    split
    · split <;> rfl
    · rfl

theorem add_ai_message_transient (st : MMState) (m : String) (sid : Option String) :
    (add_ai_message st m sid).transient
      = trim_transient_memory (st.transient ++ [⟨.assistant, m⟩]) := by
  unfold add_ai_message add_to_persistent_memory
  cases sid with
  | none => rfl
  | some s =>
    dsimp only
    split
    · split <;> rfl
    · rfl

theorem foldl_append_transient (sid : Option String) (ops : List (Role × String)) :
    ∀ st : MMState,
      (List.foldl (apply_append sid) st ops).transient
        = List.foldl (fun buf m => trimTo MEMORY_MESSAGE_LIMIT (buf ++ [m]))
            st.transient (msgsOf ops) := by
  induction ops with
  | nil => intro st; rfl
  | cons op rest ih =>
    intro st
    obtain ⟨r, m⟩ := op
    have hstep : (apply_append sid st (r, m)).transient
        = trimTo MEMORY_MESSAGE_LIMIT (st.transient ++ [⟨r, m⟩]) := by
      cases r
      · simpa [apply_append, trim_transient_memory] using
          add_user_message_transient st m sid
      · simpa [apply_append, trim_transient_memory] using
          add_ai_message_transient st m sid
    simp only [List.foldl_cons, msgsOf, List.map_cons]
    rw [ih, hstep]
    rfl

theorem bufFold_eq_lastN (ms : List Msg) :
    List.foldl (fun buf m => trimTo MEMORY_MESSAGE_LIMIT (buf ++ [m])) [] ms
      = lastN MEMORY_MESSAGE_LIMIT ms := by
  induction ms using List.reverseRecOn with
  | nil => rfl
  | append_singleton l m ih =>
    rw [List.foldl_append, ih]
    simp only [List.foldl_cons, List.foldl_nil]
    exact trimTo_lastN_append MEMORY_MESSAGE_LIMIT (by decide) l m

theorem initial_mm_transient (mode : MemoryMode) (embedding_ok : Bool) :
    (initial_mm mode embedding_ok).transient = [] := by
  unfold initial_mm
  split
  · split <;> rfl
  · rfl

/-- C1: for every sequence of appends through `add_user_message` /
`add_ai_message` starting from a freshly constructed manager, after each
append (i.e. for every prefix of the sequence) the transient buffer has at
most `MEMORY_MESSAGE_LIMIT` messages and holds exactly the most recent
`MEMORY_MESSAGE_LIMIT` (or fewer) appended messages in append order, the
oldest having been evicted first. -/
theorem C1_buffer_bound (mode : MemoryMode) (embedding_ok : Bool) (sid : Option String)
    (ops : List (Role × String)) (i : Nat) :
    (List.foldl (apply_append sid) (initial_mm mode embedding_ok) (ops.take i)).transient.length
        ≤ MEMORY_MESSAGE_LIMIT ∧
    (List.foldl (apply_append sid) (initial_mm mode embedding_ok) (ops.take i)).transient
        = lastN MEMORY_MESSAGE_LIMIT (msgsOf (ops.take i)) := by
  have h := foldl_append_transient sid (ops.take i) (initial_mm mode embedding_ok)
  rw [initial_mm_transient] at h
  rw [h, bufFold_eq_lastN]
  exact ⟨lastN_length_le _ _, rfl⟩

/-! ## C2: privacy filter -/

theorem filterFold_flag (L : List (RE × String)) :
    ∀ (t : List Char) (b : Bool) (p : RE) (m : String),
      ((p, m) ∈ L ∧ hasMatch p [] t = true) ∨ b = true →
      (List.foldl filterStep (t, b) L).2 = true := by
  induction L with
  | nil =>
    intro t b p m h
    rcases h with ⟨hmem, _⟩ | hb
    · cases hmem
    · simpa using hb
  | cons cat rest ih =>
    intro t b p m h
    rw [List.foldl_cons]
    rcases h with ⟨hmem, hmatch⟩ | hb
    · rcases List.mem_cons.mp hmem with heq | hmem'
      · have hc : hasMatch cat.1 [] t = true := by rw [← heq]; exact hmatch
        have hstep : filterStep (t, b) cat = (subst cat.1 cat.2.toList t, true) := by
          simp [filterStep, hc]
        rw [hstep]
        exact ih _ _ p m (Or.inr rfl)
      · by_cases hc : hasMatch cat.1 [] t = true
        · have hstep : filterStep (t, b) cat = (subst cat.1 cat.2.toList t, true) := by
            simp [filterStep, hc]
          rw [hstep]
          exact ih _ _ p m (Or.inr rfl)
        · have hstep : filterStep (t, b) cat = (t, b) := by
            simp [filterStep, hc]
          rw [hstep]
          exact ih _ _ p m (Or.inl ⟨hmem', hmatch⟩)
    · subst hb
      by_cases hc : hasMatch cat.1 [] t = true
      · have hstep : filterStep (t, true) cat = (subst cat.1 cat.2.toList t, true) := by
          simp [filterStep, hc]
        rw [hstep]
        exact ih _ _ p m (Or.inr rfl)
      · have hstep : filterStep (t, true) cat = (t, true) := by
          simp [filterStep, hc]
        rw [hstep]
        exact ih _ _ p m (Or.inr rfl)

/-- C2 (amended): an input containing a syntactically valid instance of a
monitored category always makes `filter_text` (filter enabled) report
`has_sensitive_data = true`; the redaction-completeness half of the
original claim is refuted by `C2_counterexample`. -/
theorem C2_filter_flags_sensitive (t : List Char) (p : RE) (m : String)
    (hmem : (p, m) ∈ privacyPatterns) (hmatch : hasMatch p [] t = true) :
    (filter_text true t).2 = true := by
  have h := filterFold_flag privacyPatterns t false p m (Or.inl ⟨hmem, hmatch⟩)
  simpa [filter_text] using h

theorem C2_filter_flags_sensitive_witness :
    (filter_text true ("my email is user@example.com".toList)).2 = true :=
  C2_filter_flags_sensitive _ emailRE "[EMAIL REDACTED]"
    (by simp [privacyPatterns]) (by decide)

/-- C2 counterexample: the input `"12345678901234561234 5678 9012 3456"`
contains a syntactically valid credit-card instance, `filter_text` flags
it, yet the returned text still contains a substring matching the
credit-card pattern (`re.sub`'s non-overlapping scan replaces the first 16
digits and leaves `"1234 5678 9012 3456"` adjacent to the marker, where the
new word boundary lets it match). -/
theorem C2_counterexample :
    (creditCardRE, "[CREDIT CARD REDACTED]") ∈ privacyPatterns ∧
    hasMatch creditCardRE [] ccAttack = true ∧
    (filter_text true ccAttack).2 = true ∧
    hasMatch creditCardRE [] (filter_text true ccAttack).1 = true := by
  refine ⟨by simp [privacyPatterns], by decide, by decide, by decide⟩

/-! ## C3: source citation dedup and order -/

theorem foldl_source_eq (docs : List Doc) :
    ∀ acc : List String,
      List.foldl source_step acc docs
        = acc ++ dedupExcl (docs.filterMap doc_valid_source) acc := by
  induction docs with
  | nil => intro acc; simp [dedupExcl]
  | cons d ds ih =>
    intro acc
    rw [List.foldl_cons]
    cases hv : doc_valid_source d with
    | none =>
      have hstep : source_step acc d = acc := by simp [source_step, hv]
      rw [hstep, ih, List.filterMap_cons, hv]
    | some s =>
      rw [List.filterMap_cons, hv]
      by_cases hmem : s ∈ acc
      · have hstep : source_step acc d = acc := by simp [source_step, hv, hmem]
        rw [hstep, ih]
        simp [dedupExcl, hmem]
      · have hstep : source_step acc d = acc ++ [s] := by simp [source_step, hv, hmem]
        rw [hstep, ih]
        simp [dedupExcl, hmem, List.append_assoc]

theorem dedupExcl_mem_not_seen (l : List String) :
    ∀ (seen : List String) (x : String), x ∈ dedupExcl l seen → x ∉ seen := by
  induction l with
  | nil => intro seen x h; simp [dedupExcl] at h
  | cons a as ih =>
    intro seen x h
    by_cases ha : a ∈ seen
    · rw [dedupExcl, if_pos ha] at h
      exact ih seen x h
    · rw [dedupExcl, if_neg ha] at h
      rcases List.mem_cons.mp h with rfl | h'
      · exact ha
      · have h2 := ih (seen ++ [a]) x h'
        intro hx
        exact h2 (List.mem_append_left _ hx)

theorem dedupExcl_nodup (l : List String) :
    ∀ seen : List String, (dedupExcl l seen).Nodup := by
  induction l with
  | nil => intro seen; simp [dedupExcl]
  | cons a as ih =>
    intro seen
    by_cases ha : a ∈ seen
    · rw [dedupExcl, if_pos ha]
      exact ih seen
    · rw [dedupExcl, if_neg ha]
      refine List.nodup_cons.mpr ⟨?_, ih (seen ++ [a])⟩
      intro hmem
      exact dedupExcl_mem_not_seen as (seen ++ [a]) a hmem
        (List.mem_append_right _ (List.mem_singleton.mpr rfl))

theorem firstSeenDedupSpec_cons (x : String) (xs : List String) :
    firstSeenDedupSpec (x :: xs)
      = x :: firstSeenDedupSpec (xs.filter (fun y => decide (y ≠ x))) := by
  simp [firstSeenDedupSpec]

theorem dedupExcl_eq_spec (l : List String) :
    ∀ seen : List String,
      dedupExcl l seen = firstSeenDedupSpec (l.filter (fun y => decide (y ∉ seen))) := by
  induction l with
  | nil => intro seen; simp [dedupExcl, firstSeenDedupSpec]
  | cons a as ih =>
    intro seen
    by_cases ha : a ∈ seen
    · rw [dedupExcl, if_pos ha]
      have hf : List.filter (fun y => decide (y ∉ seen)) (a :: as)
          = List.filter (fun y => decide (y ∉ seen)) as := by
        simp [List.filter_cons, ha]
      rw [hf]
      exact ih seen
    · rw [dedupExcl, if_neg ha]
      have hf : List.filter (fun y => decide (y ∉ seen)) (a :: as)
          = a :: List.filter (fun y => decide (y ∉ seen)) as := by
        simp [List.filter_cons, ha]
      rw [hf, firstSeenDedupSpec_cons, ih (seen ++ [a])]
      congr 1
      rw [List.filter_filter]
      congr 1
      apply List.filter_congr
      intro y _
      simp [List.mem_append, not_or, and_comm]

/-- C3: the assembled source-citation list contains each valid normalized
identifier exactly once (`Nodup`), equals the first-seen deduplication of
the per-document valid sources (skipping missing/empty/placeholder
identifiers and reducing paths to their final segment), and on the
`[A, B, A, C]` example with placeholder `B` it is exactly `[A, C]`. -/
theorem C3_source_dedup_order (docs : List Doc) :
    (rag_sources docs).Nodup ∧
    rag_sources docs = firstSeenDedupSpec (docs.filterMap doc_valid_source) ∧
    rag_sources exampleDocs = ["doc1.pdf", "notes.txt"] := by
  refine ⟨?_, ?_, by decide⟩
  · rw [rag_sources, foldl_source_eq docs []]
    simpa using dedupExcl_nodup (docs.filterMap doc_valid_source) []
  · rw [rag_sources, foldl_source_eq docs [], List.nil_append,
      dedupExcl_eq_spec (docs.filterMap doc_valid_source) []]
    congr 1
    apply List.filter_eq_self.mpr
    intro y _
    simp

/-! ## C4: `get_response` never propagates an exception -/

/-- C4: whatever the backends do, `get_response` is a total function, and
whenever the answer-mode dispatch raises, it records the error message as
the AI turn in memory and returns the apology string with the sensitive
flag forced to `false`. -/
theorem C4_no_raw_exception (env : Env) (st : EngState) (q e : String)
    (h : dispatch_response env (after_user_append st q) (filtered_query st q) = .error e) :
    get_response env st q =
      ({ after_user_append st q with
          mm := add_ai_message (after_user_append st q).mm (error_response e) st.session_id },
        error_response e, false) := by
  unfold get_response
  rw [h]

theorem C4_no_raw_exception_witness :
    get_response envBoom st0 "hi" =
      ({ after_user_append st0 "hi" with
          mm := add_ai_message (after_user_append st0 "hi").mm (error_response "boom")
                  st0.session_id },
        error_response "boom", false) :=
  C4_no_raw_exception envBoom st0 "hi" "boom" (by rfl)

/-! ## C5: mode-switch atomicity -/

theorem mm_change_memory_mode_true (st : MMState) (mode : MemoryMode) :
    (mm_change_memory_mode st mode).2 = true := by
  unfold mm_change_memory_mode
  split
  · rfl
  · split
    · split <;> rfl
    · rfl

theorem mm_change_memory_mode_transient (st : MMState) (mode : MemoryMode) :
    (mm_change_memory_mode st mode).1.transient = st.transient := by
  unfold mm_change_memory_mode
  split
  · rfl
  · split
    · split <;> rfl
    · rfl

/-- C5 counterexample: `change_model_provider` to OPENAI with the OpenAI
key unset returns failure, yet the engine's recorded model provider has
changed from GROQ to OPENAI (the client and chain keep the old
configuration): an observable half-switched state. -/
theorem C5_counterexample :
    (change_model_provider envBoom st0 (.inr .OPENAI)).2 = false ∧
    (change_model_provider envBoom st0 (.inr .OPENAI)).1.model_provider
      ≠ st0.model_provider := by
  exact ⟨rfl, by decide⟩

/-- C5 (amended): failures caused by an unparsable provider/mode string
leave the state unchanged, `change_answer_mode` is atomic on every failure,
`change_memory_mode` and `toggle_privacy_filter` never report failure — but
when `change_model_provider` fails because client construction raises, the
recorded provider has already been overwritten while the client and chain
keep the previous configuration. -/
theorem C5_switch_atomicity (env : Env) (st : EngState) :
    (∀ s, parse_model_provider s = none →
        change_model_provider env st (.inl s) = (st, false)) ∧
    (∀ arg, (change_answer_mode env st arg).2 = false →
        (change_answer_mode env st arg).1 = st) ∧
    (∀ p e, initialize_llm env p = .error e →
        change_model_provider env st (.inr p) = ({ st with model_provider := p }, false)) ∧
    (∀ mode, (llm_change_memory_mode env st mode).2 = true) ∧
    (∀ b, toggle_privacy_filter st b = ({ st with filter_enabled := b }, true)) := by
  refine ⟨?_, ?_, ?_, ?_, ?_⟩
  · intro s hs
    simp [change_model_provider, hs]
  · intro arg h
    cases arg with
    | inl s =>
      cases hp : parse_answer_mode s with
      | none => simp [change_answer_mode, hp]
      | some m => simp [change_answer_mode, hp] at h
    | inr m => simp [change_answer_mode] at h
  · intro p e h
    simp [change_model_provider, h]
  · intro mode
    simp [llm_change_memory_mode, mm_change_memory_mode_true]
    split <;> rfl
  · intro b
    rfl

theorem C5_switch_atomicity_witness :
    change_model_provider envBoom st0 (.inl "bogus") = (st0, false) ∧
    change_model_provider envBoom st0 (.inr .OPENAI)
      = ({ st0 with model_provider := .OPENAI }, false) :=
  ⟨(C5_switch_atomicity envBoom st0).1 "bogus" rfl,
   (C5_switch_atomicity envBoom st0).2.2.1 .OPENAI
     "OpenAI API key not found. Please set OPENAI_API_KEY environment variable." rfl⟩

/-! ## C6: memory-mode switches and the transient buffer -/

/-- C6 counterexample: switching TRANSIENT → PERSISTENT with no active
session succeeds and *does* auto-create a session — the engine's session
id does not stay unset. -/
theorem C6_counterexample :
    stBuf.session_id = none ∧
    (llm_change_memory_mode envBoom stBuf .PERSISTENT).2 = true ∧
    (llm_change_memory_mode envBoom stBuf .PERSISTENT).1.session_id ≠ none := by
  exact ⟨rfl, rfl, by decide⟩

/-- C6 (amended): switching memory mode in either direction leaves the
transient buffer's contents unchanged; switching to PERSISTENT with no
truthy active session auto-creates a fresh session and installs its id. -/
theorem C6_memory_mode_switch (env : Env) (st : EngState) (mode : MemoryMode) :
    (llm_change_memory_mode env st mode).1.mm.transient = st.mm.transient ∧
    (mode = .PERSISTENT → sidTruthy st.session_id = false →
      (llm_change_memory_mode env st mode).1.session_id = some env.fresh_session_id) := by
  constructor
  · simp only [llm_change_memory_mode, mm_change_memory_mode_true, if_true]
    split <;> simp [mm_change_memory_mode_transient]
  · intro h1 h2
    simp [llm_change_memory_mode, mm_change_memory_mode_true, h1, h2]

theorem C6_memory_mode_switch_witness :
    (llm_change_memory_mode envBoom stBuf .PERSISTENT).1.mm.transient
        = stBuf.mm.transient ∧
    (llm_change_memory_mode envBoom stBuf .PERSISTENT).1.session_id = some "fresh-1" :=
  ⟨(C6_memory_mode_switch envBoom stBuf .PERSISTENT).1,
   (C6_memory_mode_switch envBoom stBuf .PERSISTENT).2 rfl rfl⟩

/-! ## C7: session loading -/

/-- C7: `load_session` returns `false` in TRANSIENT mode (untouched state)
and for a missing session; for an existing session it replaces the cleared
transient buffer by the stored message list trimmed to its most recent
`MEMORY_MESSAGE_LIMIT` entries, in stored order with stored roles, and
returns `true`; the persisted `[user:"hello", assistant:"hi"]` session is
reproduced exactly after clearing the buffer. -/
theorem C7_load_session (st : MMState) (sid : String) :
    (st.memory_mode ≠ .PERSISTENT → load_session st sid = (st, false)) ∧
    (st.memory_mode = .PERSISTENT → st.sessions.lookup sid = none →
        (load_session st sid).2 = false) ∧
    (∀ msgs, st.memory_mode = .PERSISTENT → st.sessions.lookup sid = some msgs →
        load_session st sid
          = ({ st with transient := lastN MEMORY_MESSAGE_LIMIT msgs }, true)) ∧
    load_session { rt_m2 with transient := [] } "s1"
      = ({ rt_m2 with transient := [⟨.user, "hello"⟩, ⟨.assistant, "hi"⟩] }, true) := by
  refine ⟨?_, ?_, ?_, by decide⟩
  · intro h
    simp [load_session, h]
  · intro h1 h2
    simp [load_session, h1, h2]
  · intro msgs h1 h2
    simp [load_session, h1, h2, trim_transient_memory, trimTo_eq_lastN]

theorem C7_load_session_witness :
    load_session rt_m2 "s1"
      = ({ rt_m2 with
            transient := lastN MEMORY_MESSAGE_LIMIT
              [⟨.user, "hello"⟩, ⟨.assistant, "hi"⟩] }, true) :=
  (C7_load_session rt_m2 "s1").2.2.1 [⟨.user, "hello"⟩, ⟨.assistant, "hi"⟩]
    (by decide) (by decide)

/-! ## C10: failed load clears the buffer -/

/-- C10: in PERSISTENT mode, loading a nonexistent session returns `false`
but the transient buffer has already been cleared — the failed call does
not leave the state unchanged. -/
theorem C10_failed_load_clears (st : MMState) (sid : String)
    (h1 : st.memory_mode = .PERSISTENT) (h2 : st.sessions.lookup sid = none) :
    load_session st sid = ({ st with transient := [] }, false) := by
  simp [load_session, h1, h2]

theorem C10_failed_load_clears_witness :
    load_session rt_m2 "missing" = ({ rt_m2 with transient := [] }, false) ∧
    rt_m2.transient ≠ [] :=
  ⟨C10_failed_load_clears rt_m2 "missing" (by decide) (by decide), by decide⟩

/-! ## C8: web-search fallback -/

/-- C8 counterexample: WEB_SEARCH mode with the Tavily chain installed and
the search backend raising.  The DEFAULT-mode answer for the query is
`"ANSWER"`, but `processQuery` returns the engine apology instead: the
fallback call `_get_default_response` invokes the installed web-search
`LLMChain` with only the `question` input, which raises for lack of
`search_results`. -/
theorem C8_counterexample :
    envWebFail.search_invoke "hi" = .error "tavily down" ∧
    chain_invoke_question envWebFail .defaultChain (filtered_query stWeb "hi")
      = .ok "ANSWER" ∧
    (get_response envWebFail stWeb "hi").2.1
      = error_response "Missing some input keys: search_results" ∧
    (get_response envWebFail stWeb "hi").2.1 ≠ "ANSWER" := by
  refine ⟨rfl, rfl, by decide, by decide⟩

/-- C8 (amended): in WEB_SEARCH mode, when the web-search `try` block
raises, the fallback produces the DEFAULT-mode answer only when the default
chain is the installed one (no Tavily key, so the web-search chain was
never built); when the Tavily-backed chain is installed, the fallback
invocation fails for lack of the `search_results` input and `processQuery`
returns the engine apology with the flag `false`. -/
theorem C8_web_search_fallback (env : Env) (st : EngState) (q e a : String)
    (hmode : st.answer_mode = .WEB_SEARCH)
    (htry : web_search_try env st (filtered_query st q) = .error e) :
    (st.chain = .defaultChain →
      env.llm_invoke (DEFAULT_PROMPT_format (filtered_query st q)) = .ok a →
      (get_response env st q).2 = (a, filtered_flag st q)) ∧
    (st.chain = .webSearchChain →
      (get_response env st q).2
        = (error_response "Missing some input keys: search_results", false)) := by
  have htool : (after_user_append st q).search_tool = st.search_tool := rfl
  have hchain : (after_user_append st q).chain = st.chain := rfl
  have hmode' : (after_user_append st q).answer_mode = st.answer_mode := rfl
  have htry' : web_search_try env (after_user_append st q) (filtered_query st q)
      = .error e := by
    rw [show web_search_try env (after_user_append st q) (filtered_query st q)
          = web_search_try env st (filtered_query st q) from by
        unfold web_search_try
        rw [htool]]
    exact htry
  constructor
  · intro hdef hllm
    unfold get_response dispatch_response
    rw [hmode', hmode]
    unfold get_web_search_response
    rw [htry']
    unfold get_default_response chain_invoke_question
    rw [hchain, hdef]
    rw [hllm]
  · intro hweb
    unfold get_response dispatch_response
    rw [hmode', hmode]
    unfold get_web_search_response
    rw [htry']
    unfold get_default_response chain_invoke_question
    rw [hchain, hweb]

theorem C8_web_search_fallback_witness :
    (get_response envWebFail stWebNoKey "hi").2 = ("ANSWER", false) :=
  (C8_web_search_fallback envWebFail stWebNoKey "hi" "AttributeError: search_tool"
      "ANSWER" rfl (by rfl)).1 rfl rfl

/-! ## C9: recorded provider vs. active backend -/

/-- C9 counterexample: with HuggingFace failing and the Ollama server
unreachable, `_initialize_embeddings` records OLLAMA as the current
provider yet returns the hash-based `FallbackEmbeddings`, which belongs to
no provider — the reported provider disagrees with the active backend. -/
theorem C9_counterexample :
    initialize_embeddings embEnvAllFail .HUGGINGFACE = (.OLLAMA, .fallbackEmbeddings) ∧
    embClientProvider (initialize_embeddings embEnvAllFail .HUGGINGFACE).2
      ≠ some (initialize_embeddings embEnvAllFail .HUGGINGFACE).1 := by
  exact ⟨rfl, by decide⟩

/-- C9 (amended): the language-model fallback (Ollama → Groq) always
leaves the recorded provider equal to the provider of the client actually
built, and so does the first embedding fallback tier (HuggingFace →
Ollama); but whenever the last-resort hash-based embedding is returned the
recorded embedding provider is OLLAMA while the active embedding function
belongs to no provider, so recorded and active disagree at that tier. -/
theorem C9_fallback_consistency (env : Env) (eenv : EmbEnv)
    (mp : ModelProvider) (ep : EmbeddingProvider) :
    (∀ p2 c, initialize_llm env mp = .ok (p2, c) → llmClientProvider c = p2) ∧
    ((initialize_embeddings eenv ep).2 ≠ .fallbackEmbeddings →
      embClientProvider (initialize_embeddings eenv ep).2
        = some (initialize_embeddings eenv ep).1) ∧
    ((initialize_embeddings eenv ep).2 = .fallbackEmbeddings →
      (initialize_embeddings eenv ep).1 = .OLLAMA ∧
      embClientProvider (initialize_embeddings eenv ep).2 = none) := by
  refine ⟨?_, ?_, ?_⟩
  · intro p2 c h
    cases mp <;> simp only [initialize_llm] at h <;> split at h <;> simp at h
    all_goals obtain ⟨h1, h2⟩ := h
    all_goals cases h1
    all_goals cases h2
    all_goals rfl
  · intro h
    cases ep <;> by_cases hf : eenv.hf_ok <;> by_cases ho : eenv.ollama_server_ok <;>
      simp_all [initialize_embeddings, initialize_ollama_embeddings, embClientProvider]
  · intro h
    cases ep <;> by_cases hf : eenv.hf_ok <;> by_cases ho : eenv.ollama_server_ok <;>
      simp_all [initialize_embeddings, initialize_ollama_embeddings, embClientProvider]

theorem C9_fallback_consistency_witness :
    embClientProvider (initialize_embeddings embEnvHfFail .HUGGINGFACE).2
      = some (initialize_embeddings embEnvHfFail .HUGGINGFACE).1 ∧
    llmClientProvider .chatGroq = .GROQ :=
  ⟨(C9_fallback_consistency envBoom embEnvHfFail .OLLAMA .HUGGINGFACE).2.1 (by decide),
   (C9_fallback_consistency envBoom embEnvHfFail .OLLAMA .HUGGINGFACE).1
     .GROQ .chatGroq rfl⟩

end Rag
